import Mathlib

/-!
The effect fx_pitch_shift: parameter mutators and bus transactions.

Shallow embedding of `src/effects/dm_fx_pitch_shift.h` (class `fx_pitch_shift`):
the constructor and the three mutators `enable`, `bypass`, `set_freq_shift`.

The header uses declarations that live elsewhere in the library (the base class
`fx_effect`, `fx_control_node`, the canvas behind `parent_canvas`, the
`CHECK_LAST*` macros and the tag constants).  Each of them is given here by a
definition whose doc comment starts with `Modelled from the spec:`.

State is passed explicitly: a mutator takes the effect record and the canvas
object its `parent_canvas` pointer designates (`none` for an absent canvas) and
returns both after the call.
-/

namespace DreamMakerFx

/-! `float` : IEEE-754 binary32, compared the way C compares it -/

/-- The C type `float`, held as its 32-bit IEEE-754 pattern
(bit 31 sign, bits 30..23 exponent, bits 22..0 mantissa). -/
structure float where
  bits : Fin 4294967296
deriving DecidableEq

/-- Biased exponent field, bits 30..23. -/
def float.exponent (v : float) : Nat := v.bits.val / 8388608 % 256

/-- Mantissa field, bits 22..0. -/
def float.mantissa (v : float) : Nat := v.bits.val % 8388608

/-- Sign bit, bit 31. -/
def float.sign (v : float) : Bool := decide (2147483648 ≤ v.bits.val)

/-- Not-a-number: exponent all ones and a non-zero mantissa. -/
def float.isNaN (v : float) : Bool := v.exponent == 255 && v.mantissa != 0

/-- Positive or negative zero. -/
def float.isZero (v : float) : Bool := v.exponent == 0 && v.mantissa == 0

/-- The C expression `a == b` on two floats: false as soon as one side is a NaN,
true for two zeros of either sign, otherwise equality of the patterns. -/
def float.equal (a b : float) : Bool :=
  !a.isNaN && !b.isNaN && (decide (a.bits = b.bits) || (a.isZero && b.isZero))

/-- The C expression `a <= 0` on a float: false for a NaN, otherwise true for a
zero and for every value with the sign bit set. -/
def float.le_zero (a : float) : Bool := !a.isNaN && (a.isZero || a.sign)

/-- The float 0.5f (0x3F000000). -/
def float.half : float := ⟨1056964608⟩
/-- The float 1.0f (0x3F800000). -/
def float.one : float := ⟨1065353216⟩
/-- The float 2.0f (0x40000000). -/
def float.two : float := ⟨1073741824⟩
/-- The float -1.0f (0xBF800000). -/
def float.neg_one : float := ⟨3212836864⟩
/-- The float +0.0f. -/
def float.pos_zero : float := ⟨0⟩
/-- A quiet NaN (0x7FC00000). -/
def float.qnan : float := ⟨2143289344⟩

/-! Tags and identifiers -/

/-- Modelled from the spec: the enumerated effect kind (`type_tag` of an Effect,
`effect_type_tag` of a transaction).  The header names `FX_PITCH_SHIFT`; every
other kind of the catalog is `other`. -/
inductive EFFECT_TYPE where
  | FX_PITCH_SHIFT
  | other (tag : Nat)
deriving DecidableEq

/-- Modelled from the spec: the value type tag, one of {bool, float, int, enum}.
The header names `T_BOOL` and `T_FLOAT`. -/
inductive PARAM_TYPE where
  | T_BOOL
  | T_FLOAT
  | T_INT
  | T_ENUM
deriving DecidableEq

/-- Modelled from the spec: the effect-type-local parameter identifiers of the
pitch shifter; the header names these two constants. -/
inductive PARAM_ID where
  | FX_PITCH_SHIFT_PARAM_ID_ENABLED
  | FX_PITCH_SHIFT_PARAM_ID_FREQ_SHIFT
deriving DecidableEq

/-- Modelled from the spec: direction of a node (`direction: {in,out}`). -/
inductive NODE_DIRECTION where
  | NODE_IN
  | NODE_OUT
deriving DecidableEq

/-- Modelled from the spec: value type of a control node; the header names
`NODE_FLOAT`. -/
inductive NODE_TYPE where
  | NODE_FLOAT
  | other (tag : Nat)
deriving DecidableEq

/-- The member a `param_stack` entry points to. -/
inductive PARAM_REF where
  | param_freq_shift
deriving DecidableEq

/-- The node object a node pointer designates. -/
inductive NODE_REF where
  | node_input
  | node_output
  | node_ctrl_freq_shift
deriving DecidableEq

/-- The value read through the `void *` handed to `spi_transmit_param`,
interpreted by the value type tag sent with it. -/
inductive PARAM_VALUE where
  | bool (b : Bool)
  | float (f : float)
deriving DecidableEq

/-! Collaborators: control node, canvas, bus -/

/-- Modelled from the spec: `fx_control_node`, a typed control port
`{ direction, value_type, connected, label }` tied to one parameter. -/
structure fx_control_node where
  node_direction : NODE_DIRECTION
  node_type : NODE_TYPE
  node_name : String
  param_id : PARAM_ID
  connected : Bool
deriving DecidableEq

/-- Modelled from the spec: the `fx_control_node` constructor called in the
initialiser list; a parameter starts in the Direct state, its node unconnected. -/
def fx_control_node.ctor (d : NODE_DIRECTION) (t : NODE_TYPE) (name : String)
    (param_id : PARAM_ID) : fx_control_node :=
  { node_direction := d, node_type := t, node_name := name, param_id := param_id,
    connected := false }

/-- The parameter-update transaction, fields in the order of the arguments of
`spi_transmit_param` (and of section 6 of the spec). -/
structure Transaction where
  effect_type_tag : EFFECT_TYPE
  instance_id : Nat
  value_type_tag : PARAM_TYPE
  parameter_id : PARAM_ID
  payload : PARAM_VALUE
deriving DecidableEq

/-- Modelled from the spec: the canvas behind `parent_canvas`.  `transport` is
the Bus Transport (`send(transaction) -> success|failure`), `bus` the
transactions handed to it so far, oldest first. -/
structure fx_canvas where
  transport : Transaction → Bool
  bus : List Transaction

/-- Modelled from the spec: `spi_transmit_param`, the single choke
point of the canvas.  It hands the transaction to the transport, in call order, without
reordering, batching or coalescing, and reports the answer of the transport. -/
def fx_canvas.spi_transmit_param (c : fx_canvas) (effect_type : EFFECT_TYPE)
    (instance_id : Nat) (value_type : PARAM_TYPE) (param_id : PARAM_ID)
    (value : PARAM_VALUE) : fx_canvas × Bool :=
  let t : Transaction := ⟨effect_type, instance_id, value_type, param_id, value⟩
  ({ c with bus := c.bus ++ [t] }, c.transport t)

/-! The effect -/

/-- Modelled from the spec: the members of the base class `fx_effect` that
the pitch shifter reads or writes. -/
structure fx_effect where
  type : EFFECT_TYPE
  effect_name : String
  instance_id : Nat
  param_enabled : Bool
  param_stack : Nat → Option PARAM_REF
  param_stack_types : Nat → Option PARAM_TYPE
  total_params : Nat
  control_node_stack : Nat → Option NODE_REF
  total_control_nodes : Nat

/-- The class `fx_pitch_shift`: the base members and its own. -/
structure fx_pitch_shift extends fx_effect where
  param_freq_shift : float
  node_ctrl_freq_shift : fx_control_node
  input : NODE_REF
  output : NODE_REF
  freq_shift : NODE_REF

/-- The constructor `fx_pitch_shift(float pitch_shift_freq)`, run on the state
`base` that the base class constructor left. -/
def fx_pitch_shift.ctor (base : fx_effect) (pitch_shift_freq : float) : fx_pitch_shift :=
  let indx := 1
  { type := EFFECT_TYPE.FX_PITCH_SHIFT
    effect_name := "pitch shift"
    instance_id := base.instance_id
    param_enabled := true
    param_stack := Function.update base.param_stack indx (some PARAM_REF.param_freq_shift)
    param_stack_types := Function.update base.param_stack_types indx (some PARAM_TYPE.T_FLOAT)
    total_params := indx + 1
    control_node_stack :=
      Function.update base.control_node_stack base.total_control_nodes
        (some NODE_REF.node_ctrl_freq_shift)
    total_control_nodes := base.total_control_nodes + 1
    param_freq_shift := pitch_shift_freq
    node_ctrl_freq_shift :=
      fx_control_node.ctor NODE_DIRECTION.NODE_IN NODE_TYPE.NODE_FLOAT "node_ctrl_freq_shift"
        PARAM_ID.FX_PITCH_SHIFT_PARAM_ID_FREQ_SHIFT
    input := NODE_REF.node_input
    output := NODE_REF.node_output
    freq_shift := NODE_REF.node_ctrl_freq_shift }

/-- Modelled from the spec: attaching gives the effect its `instance_id`; the
canvas it now belongs to is the one passed to the mutators. -/
def fx_pitch_shift.attached_as (fx : fx_pitch_shift) (id : Nat) : fx_pitch_shift :=
  { fx with instance_id := id }

/-- Modelled from the spec: the macro `CHECK_LAST_ENABLED()`, the guard of
`enable()`; true when the macro returns from the mutator (already enabled). -/
def CHECK_LAST_ENABLED (fx : fx_pitch_shift) : Bool := fx.param_enabled

/-- Modelled from the spec: the macro `CHECK_LAST_DISABLED()`, the guard of
`bypass()`; true when the macro returns from the mutator (already bypassed). -/
def CHECK_LAST_DISABLED (fx : fx_pitch_shift) : Bool := !fx.param_enabled

/-- Modelled from the spec: the macro `CHECK_LAST(new, last)`; true when the
macro returns from the mutator (the new value compares equal to the last one). -/
def CHECK_LAST (new_val last_val : float) : Bool := float.equal new_val last_val

/-- What a mutator call leaves behind: the effect, the canvas reached through
`parent_canvas`, and whether the call was made through an absent canvas. -/
structure Outcome where
  fx : fx_pitch_shift
  parent_canvas : Option fx_canvas
  fault : Bool

/-- The statement `parent_canvas->spi_transmit_param(...)`.  The mutators are
`void` and drop the value the call returns. -/
def transmit_through (fx : fx_pitch_shift) (parent_canvas : Option fx_canvas)
    (effect_type : EFFECT_TYPE) (value_type : PARAM_TYPE) (param_id : PARAM_ID)
    (value : PARAM_VALUE) : Outcome :=
  match parent_canvas with
  | none => { fx := fx, parent_canvas := none, fault := true }
  | some c =>
    { fx := fx
      parent_canvas :=
        some (c.spi_transmit_param effect_type fx.instance_id value_type param_id value).1
      fault := false }

/-- The mutator `enable()`. -/
def fx_pitch_shift.enable (fx : fx_pitch_shift) (parent_canvas : Option fx_canvas) : Outcome :=
  if CHECK_LAST_ENABLED fx then { fx := fx, parent_canvas := parent_canvas, fault := false }
  else
    let fx1 : fx_pitch_shift := { fx with param_enabled := true }
    transmit_through fx1 parent_canvas EFFECT_TYPE.FX_PITCH_SHIFT PARAM_TYPE.T_BOOL
      PARAM_ID.FX_PITCH_SHIFT_PARAM_ID_ENABLED (PARAM_VALUE.bool fx1.param_enabled)

/-- The mutator `bypass()`. -/
def fx_pitch_shift.bypass (fx : fx_pitch_shift) (parent_canvas : Option fx_canvas) : Outcome :=
  if CHECK_LAST_DISABLED fx then { fx := fx, parent_canvas := parent_canvas, fault := false }
  else
    let fx1 : fx_pitch_shift := { fx with param_enabled := false }
    transmit_through fx1 parent_canvas EFFECT_TYPE.FX_PITCH_SHIFT PARAM_TYPE.T_BOOL
      PARAM_ID.FX_PITCH_SHIFT_PARAM_ID_ENABLED (PARAM_VALUE.bool fx1.param_enabled)

/-- The mutator `set_freq_shift(float freq_shift)`. -/
def fx_pitch_shift.set_freq_shift (fx : fx_pitch_shift) (freq_shift : float)
    (parent_canvas : Option fx_canvas) : Outcome :=
  if CHECK_LAST freq_shift fx.param_freq_shift then
    { fx := fx, parent_canvas := parent_canvas, fault := false }
  else if fx.node_ctrl_freq_shift.connected then
    { fx := fx, parent_canvas := parent_canvas, fault := false }
  else
    let fx1 : fx_pitch_shift := { fx with param_freq_shift := freq_shift }
    transmit_through fx1 parent_canvas EFFECT_TYPE.FX_PITCH_SHIFT PARAM_TYPE.T_FLOAT
      PARAM_ID.FX_PITCH_SHIFT_PARAM_ID_FREQ_SHIFT (PARAM_VALUE.float fx1.param_freq_shift)

/-! Observations -/

/-- The transactions that reached the bus between the canvas state `c` and the
outcome `o` of a call (or of a sequence of calls) started on `c`. -/
def transmitted (c : fx_canvas) (o : Outcome) : List Transaction :=
  match o.parent_canvas with
  | none => []
  | some c1 => c1.bus.drop c.bus.length

/-- Calls the mutator `m` `n` times in a row; a call through an absent canvas
ends the run. -/
def call_n (m : fx_pitch_shift → Option fx_canvas → Outcome) :
    Nat → fx_pitch_shift → Option fx_canvas → Outcome
  | 0, fx, pc => { fx := fx, parent_canvas := pc, fault := false }
  | n + 1, fx, pc =>
    let o := m fx pc
    if o.fault then o else call_n m n o.fx o.parent_canvas

/-- The transaction `enable()` and `bypass()` send for the effect `fx`. -/
def enabled_transaction (fx : fx_pitch_shift) (b : Bool) : Transaction :=
  ⟨EFFECT_TYPE.FX_PITCH_SHIFT, fx.instance_id, PARAM_TYPE.T_BOOL,
    PARAM_ID.FX_PITCH_SHIFT_PARAM_ID_ENABLED, PARAM_VALUE.bool b⟩

/-- The transaction `set_freq_shift(v)` sends for the effect `fx`. -/
def freq_shift_transaction (fx : fx_pitch_shift) (v : float) : Transaction :=
  ⟨EFFECT_TYPE.FX_PITCH_SHIFT, fx.instance_id, PARAM_TYPE.T_FLOAT,
    PARAM_ID.FX_PITCH_SHIFT_PARAM_ID_FREQ_SHIFT, PARAM_VALUE.float v⟩

/-! Sample inputs -/

/-- A base class state with empty stacks, used for concrete runs. -/
def sample_base : fx_effect :=
  { type := EFFECT_TYPE.other 0, effect_name := "", instance_id := 0, param_enabled := false,
    param_stack := fun _ => none, param_stack_types := fun _ => none, total_params := 0,
    control_node_stack := fun _ => none, total_control_nodes := 0 }

/-- A canvas with an empty bus whose transport accepts every transaction. -/
def sample_canvas : fx_canvas := { transport := fun _ => true, bus := [] }

/-- A canvas with an empty bus whose transport fails on every transaction. -/
def failing_canvas : fx_canvas := { transport := fun _ => false, bus := [] }

/-- The scenario `A.set_freq_shift(1.0); B.enable(); A.set_freq_shift(2.0)` with
`A` and `B` attached to the same canvas `c`. -/
def ordering_scenario (A B : fx_pitch_shift) (c : fx_canvas) : Outcome :=
  let o1 := A.set_freq_shift float.one (some c)
  let o2 := B.enable o1.parent_canvas
  o1.fx.set_freq_shift float.two o2.parent_canvas

/-- A freshly constructed pitch shifter with shift 1.0, attached as instance 0. -/
def fresh_one : fx_pitch_shift := (fx_pitch_shift.ctor sample_base float.one).attached_as 0

/-- A freshly constructed pitch shifter with shift 0.5, attached as instance `id`. -/
def fresh_half (id : Nat) : fx_pitch_shift :=
  (fx_pitch_shift.ctor sample_base float.half).attached_as id

/-! How the mutators act on an attached effect -/

theorem transmitted_unchanged (c : fx_canvas) (fx : fx_pitch_shift) (f : Bool) :
    transmitted c { fx := fx, parent_canvas := some c, fault := f } = [] := by
  simp [transmitted]

theorem transmitted_appended (c : fx_canvas) (fx : fx_pitch_shift) (f : Bool)
    (l : List Transaction) :
    transmitted c { fx := fx, parent_canvas := some { c with bus := c.bus ++ l }, fault := f }
      = l := by
  simp [transmitted]

theorem enable_attached (fx : fx_pitch_shift) (c : fx_canvas) :
    fx.enable (some c) =
      if fx.param_enabled then { fx := fx, parent_canvas := some c, fault := false }
      else
        { fx := { fx with param_enabled := true }
          parent_canvas := some { c with bus := c.bus ++ [enabled_transaction fx true] }
          fault := false } := by
  simp [fx_pitch_shift.enable, CHECK_LAST_ENABLED, transmit_through,
    fx_canvas.spi_transmit_param, enabled_transaction]

theorem bypass_attached (fx : fx_pitch_shift) (c : fx_canvas) :
    fx.bypass (some c) =
      if fx.param_enabled then
        { fx := { fx with param_enabled := false }
          parent_canvas := some { c with bus := c.bus ++ [enabled_transaction fx false] }
          fault := false }
      else { fx := fx, parent_canvas := some c, fault := false } := by
  cases h : fx.param_enabled <;>
    simp [fx_pitch_shift.bypass, CHECK_LAST_DISABLED, transmit_through,
      fx_canvas.spi_transmit_param, enabled_transaction, h]

theorem set_freq_shift_attached (fx : fx_pitch_shift) (v : float) (c : fx_canvas) :
    fx.set_freq_shift v (some c) =
      if float.equal v fx.param_freq_shift || fx.node_ctrl_freq_shift.connected then
        { fx := fx, parent_canvas := some c, fault := false }
      else
        { fx := { fx with param_freq_shift := v }
          parent_canvas := some { c with bus := c.bus ++ [freq_shift_transaction fx v] }
          fault := false } := by
  cases h1 : float.equal v fx.param_freq_shift <;>
    cases h2 : fx.node_ctrl_freq_shift.connected <;>
    simp [fx_pitch_shift.set_freq_shift, CHECK_LAST, transmit_through,
      fx_canvas.spi_transmit_param, freq_shift_transaction, h1, h2]

theorem call_n_enable_enabled (n : Nat) (fx : fx_pitch_shift) (pc : Option fx_canvas)
    (h : fx.param_enabled = true) :
    call_n fx_pitch_shift.enable n fx pc = { fx := fx, parent_canvas := pc, fault := false } := by
  induction n with
  | zero => rfl
  | succ n ih => simp [call_n, fx_pitch_shift.enable, CHECK_LAST_ENABLED, h, ih]

theorem call_n_bypass_bypassed (n : Nat) (fx : fx_pitch_shift) (pc : Option fx_canvas)
    (h : fx.param_enabled = false) :
    call_n fx_pitch_shift.bypass n fx pc = { fx := fx, parent_canvas := pc, fault := false } := by
  induction n with
  | zero => rfl
  | succ n ih => simp [call_n, fx_pitch_shift.bypass, CHECK_LAST_DISABLED, h, ih]

/-! The claims -/

/-- C1 (control lock).  While `node_ctrl_freq_shift.connected` is true,
`set_freq_shift(v)` leaves the whole effect (so `param_freq_shift` and
`param_enabled`) and the canvas as they were, for every `v`: nothing is
transmitted.  With the node not connected and `v != param_freq_shift`, the call
on an effect attached to `c` stores `v`, keeps `param_enabled` and transmits
exactly one transaction. -/
theorem C1_control_lock (fx : fx_pitch_shift) (v : float) (pc : Option fx_canvas)
    (c : fx_canvas) :
    (fx.node_ctrl_freq_shift.connected = true →
      (fx.set_freq_shift v pc).fx = fx ∧ (fx.set_freq_shift v pc).parent_canvas = pc ∧
        transmitted c (fx.set_freq_shift v (some c)) = []) ∧
    (fx.node_ctrl_freq_shift.connected = false → float.equal v fx.param_freq_shift = false →
      (fx.set_freq_shift v (some c)).fx.param_freq_shift = v ∧
        (fx.set_freq_shift v (some c)).fx.param_enabled = fx.param_enabled ∧
        transmitted c (fx.set_freq_shift v (some c)) = [freq_shift_transaction fx v]) := by
  constructor
  · intro h
    have hs : ∀ p, fx.set_freq_shift v p = { fx := fx, parent_canvas := p, fault := false } := by
      intro p
      simp [fx_pitch_shift.set_freq_shift, h]
    simp [hs, transmitted]
  · intro h1 h2
    simp [set_freq_shift_attached, h1, h2, transmitted]

/-- Witness of C1: a connected node blocks `set_freq_shift(2.0)` on a shifter
holding 1.0; the same shifter with the node unconnected takes it. -/
theorem C1_control_lock_witness :
    (({ fresh_one with
          node_ctrl_freq_shift := { fresh_one.node_ctrl_freq_shift with connected := true } } :
        fx_pitch_shift).set_freq_shift float.two (some sample_canvas)).fx.param_freq_shift
        = float.one ∧
      (fresh_one.set_freq_shift float.two (some sample_canvas)).fx.param_freq_shift = float.two ∧
      transmitted sample_canvas (fresh_one.set_freq_shift float.two (some sample_canvas))
        = [freq_shift_transaction fresh_one float.two] := by
  refine ⟨?_, ?_, ?_⟩
  · have h := (C1_control_lock
      ({ fresh_one with
          node_ctrl_freq_shift := { fresh_one.node_ctrl_freq_shift with connected := true } })
      float.two (some sample_canvas) sample_canvas).1 rfl
    rw [h.1]
    rfl
  · exact ((C1_control_lock fresh_one float.two none sample_canvas).2 rfl (by decide)).1
  · exact ((C1_control_lock fresh_one float.two none sample_canvas).2 rfl (by decide)).2.2

/-- C2 as stated fails: `set_freq_shift(1.0)` twice on an attached, unconnected
shifter that already holds 1.0 transmits no transaction at all. -/
theorem C2_dedup_counterexample :
    fresh_one.node_ctrl_freq_shift.connected = false ∧
      transmitted sample_canvas
        (call_n (fun f p => f.set_freq_shift float.one p) 2 fresh_one (some sample_canvas))
        = [] := by
  decide

/-- C2 amended (dedup).  On an attached shifter whose control node is not
connected, and for a value `V` that compares equal to itself, two calls of
`set_freq_shift(V)` in a row transmit exactly one transaction when `V` differs
from the value held before the first call, and none when it equals it. -/
theorem C2_dedup (fx : fx_pitch_shift) (V : float) (c : fx_canvas)
    (hconn : fx.node_ctrl_freq_shift.connected = false) (hV : float.equal V V = true) :
    transmitted c (call_n (fun f p => f.set_freq_shift V p) 2 fx (some c)) =
      if float.equal V fx.param_freq_shift then [] else [freq_shift_transaction fx V] := by
  cases h : float.equal V fx.param_freq_shift <;>
    simp [call_n, set_freq_shift_attached, h, hconn, hV, transmitted]

/-- Witness of C2: 2.0 set twice on a shifter holding 1.0 goes out once. -/
theorem C2_dedup_witness :
    transmitted sample_canvas
      (call_n (fun f p => f.set_freq_shift float.two p) 2 fresh_one (some sample_canvas))
      = [freq_shift_transaction fresh_one float.two] :=
  C2_dedup fresh_one float.two sample_canvas rfl (by decide)

/-- C3 as stated fails: a freshly constructed shifter is enabled (the
constructor sets `param_enabled = true`), so `enable()` on it, once or three
times, transmits no transaction. -/
theorem C3_idempotent_counterexample :
    transmitted sample_canvas (call_n fx_pitch_shift.enable 1 fresh_one (some sample_canvas)) = []
      ∧ transmitted sample_canvas
          (call_n fx_pitch_shift.enable 3 fresh_one (some sample_canvas)) = [] := by
  decide

/-- C3 amended (idempotent enable/bypass).  For an attached shifter and every
`N >= 1`: `enable()` called `N` times in a row transmits exactly one
transaction, with payload enabled=true, when the effect was bypassed before the
first call, and none when it was already enabled; `bypass()` called `N` times
transmits exactly one, with payload enabled=false, when the effect was enabled
before the first call, and none when it was already bypassed. -/
theorem C3_idempotent (fx : fx_pitch_shift) (c : fx_canvas) (N : Nat) (hN : 1 ≤ N) :
    transmitted c (call_n fx_pitch_shift.enable N fx (some c)) =
        (if fx.param_enabled then [] else [enabled_transaction fx true]) ∧
      transmitted c (call_n fx_pitch_shift.bypass N fx (some c)) =
        (if fx.param_enabled then [enabled_transaction fx false] else []) := by
  obtain ⟨n, rfl⟩ : ∃ n, N = n + 1 := ⟨N - 1, by omega⟩
  cases h : fx.param_enabled
  · constructor
    · simp [call_n, enable_attached, h, call_n_enable_enabled, transmitted]
    · simp [call_n_bypass_bypassed, h, transmitted]
  · constructor
    · simp [call_n_enable_enabled, h, transmitted]
    · simp [call_n, bypass_attached, h, call_n_bypass_bypassed, transmitted]

/-- Witness of C3: `bypass()` four times on a fresh (enabled) shifter sends one
enabled=false transaction; `enable()` four times on it sends none. -/
theorem C3_idempotent_witness :
    transmitted sample_canvas (call_n fx_pitch_shift.enable 4 fresh_one (some sample_canvas)) = []
      ∧ transmitted sample_canvas
          (call_n fx_pitch_shift.bypass 4 fresh_one (some sample_canvas))
        = [enabled_transaction fresh_one false] :=
  C3_idempotent fresh_one sample_canvas 4 (by decide)

/-- C4 as stated fails: with `A` and `B` freshly constructed (so `B` is already
enabled) and attached to one canvas, the scenario puts two transactions on the
bus, not three: `B.enable()` sends nothing. -/
theorem C4_ordering_counterexample :
    transmitted sample_canvas (ordering_scenario (fresh_half 0) (fresh_half 1) sample_canvas)
      = [freq_shift_transaction (fresh_half 0) float.one,
          freq_shift_transaction (fresh_half 0) float.two] := by
  decide

/-- C4 amended (ordering scenario).  For `A` and `B` attached to the same
canvas, with the control node of `A` not connected, `A` not already holding
1.0 and `B` bypassed, the sequence `A.set_freq_shift(1.0); B.enable();
A.set_freq_shift(2.0)` puts exactly three transactions on the bus, in this
order: (A, freq_shift, 1.0), (B, enabled, true), (A, freq_shift, 2.0). -/
theorem C4_ordering (A B : fx_pitch_shift) (c : fx_canvas)
    (hconn : A.node_ctrl_freq_shift.connected = false)
    (hA : float.equal float.one A.param_freq_shift = false)
    (hB : B.param_enabled = false) :
    transmitted c (ordering_scenario A B c) =
      [freq_shift_transaction A float.one, enabled_transaction B true,
        freq_shift_transaction A float.two] := by
  have h21 : float.equal float.two float.one = false := by decide
  simp [ordering_scenario, set_freq_shift_attached, enable_attached, hconn, hA, hB, h21,
    transmitted, freq_shift_transaction]

/-- Witness of C4: `A` fresh with shift 0.5 as instance 0, `B` a bypassed
shifter as instance 1. -/
theorem C4_ordering_witness :
    transmitted sample_canvas
      (ordering_scenario (fresh_half 0)
        ({ fresh_half 1 with param_enabled := false } : fx_pitch_shift) sample_canvas)
      = [freq_shift_transaction (fresh_half 0) float.one,
          enabled_transaction (fresh_half 1) true,
          freq_shift_transaction (fresh_half 0) float.two] :=
  C4_ordering (fresh_half 0) { fresh_half 1 with param_enabled := false } sample_canvas rfl
    (by decide) rfl

/-- C5 as stated fails for `v = v0`: after constructing with 1.0 and attaching,
`set_freq_shift(1.0)` transmits nothing, so there is no transaction whose
payload is `v`. -/
theorem C5_round_trip_counterexample :
    transmitted sample_canvas
      (((fx_pitch_shift.ctor sample_base float.one).attached_as 0).set_freq_shift float.one
        (some sample_canvas)) = [] := by
  decide

/-- C5 amended (round trip).  For every `v0` and every `v` with `v != v0`: after
constructing `fx_pitch_shift(v0)`, attaching it (as instance `id`, control node
unconnected as the constructor leaves it) and calling `set_freq_shift(v)`, the
in-memory `param_freq_shift` is `v` and exactly one transaction is transmitted,
whose payload is `v`, bit for bit. -/
theorem C5_round_trip (base : fx_effect) (v0 v : float) (id : Nat) (c : fx_canvas)
    (hne : float.equal v v0 = false) :
    (((fx_pitch_shift.ctor base v0).attached_as id).set_freq_shift v (some c)).fx.param_freq_shift
        = v ∧
      transmitted c (((fx_pitch_shift.ctor base v0).attached_as id).set_freq_shift v (some c))
        = [⟨EFFECT_TYPE.FX_PITCH_SHIFT, id, PARAM_TYPE.T_FLOAT,
            PARAM_ID.FX_PITCH_SHIFT_PARAM_ID_FREQ_SHIFT, PARAM_VALUE.float v⟩] := by
  have hv : float.equal v ((fx_pitch_shift.ctor base v0).attached_as id).param_freq_shift
      = false := hne
  have hc : ((fx_pitch_shift.ctor base v0).attached_as id).node_ctrl_freq_shift.connected
      = false := rfl
  simp only [set_freq_shift_attached, hv, hc]
  simp [transmitted, freq_shift_transaction, fx_pitch_shift.attached_as]

/-- Witness of C5, the scenario of the spec: constructed with 1.0, then
`set_freq_shift(2.0)`. -/
theorem C5_round_trip_witness :
    (((fx_pitch_shift.ctor sample_base float.one).attached_as 7).set_freq_shift float.two
        (some sample_canvas)).fx.param_freq_shift = float.two ∧
      transmitted sample_canvas
        (((fx_pitch_shift.ctor sample_base float.one).attached_as 7).set_freq_shift float.two
          (some sample_canvas))
        = [⟨EFFECT_TYPE.FX_PITCH_SHIFT, 7, PARAM_TYPE.T_FLOAT,
            PARAM_ID.FX_PITCH_SHIFT_PARAM_ID_FREQ_SHIFT, PARAM_VALUE.float float.two⟩] :=
  C5_round_trip sample_base float.one float.two 7 sample_canvas (by decide)

/-- C6 as stated fails: `set_freq_shift(-1.0)`, a value `<= 0`, on an attached
shifter holding 1.0 is taken: the parameter becomes -1.0 and one transaction
goes out. -/
theorem C6_out_of_domain_counterexample :
    float.le_zero float.neg_one = true ∧
      (fresh_one.set_freq_shift float.neg_one (some sample_canvas)).fx.param_freq_shift
        = float.neg_one ∧
      transmitted sample_canvas (fresh_one.set_freq_shift float.neg_one (some sample_canvas))
        = [freq_shift_transaction fresh_one float.neg_one] := by
  decide

/-- C6 amended (no domain check).  `set_freq_shift` treats a value `v <= 0` as
any other value: on an attached shifter the call is a no-op that transmits
nothing only when `v == param_freq_shift` or the control node is connected;
otherwise `v` is stored and one transaction with payload `v` is transmitted. -/
theorem C6_out_of_domain (fx : fx_pitch_shift) (v : float) (c : fx_canvas)
    (_hv : float.le_zero v = true) :
    ((float.equal v fx.param_freq_shift || fx.node_ctrl_freq_shift.connected) = true →
      (fx.set_freq_shift v (some c)).fx = fx ∧
        transmitted c (fx.set_freq_shift v (some c)) = []) ∧
    ((float.equal v fx.param_freq_shift || fx.node_ctrl_freq_shift.connected) = false →
      (fx.set_freq_shift v (some c)).fx = { fx with param_freq_shift := v } ∧
        transmitted c (fx.set_freq_shift v (some c)) = [freq_shift_transaction fx v]) := by
  constructor <;> intro h <;> simp [set_freq_shift_attached, h, transmitted]

/-- Witness of C6: +0.0 is stored by a shifter holding 1.0. -/
theorem C6_out_of_domain_witness :
    (fresh_one.set_freq_shift float.pos_zero (some sample_canvas)).fx
        = { fresh_one with param_freq_shift := float.pos_zero } ∧
      transmitted sample_canvas (fresh_one.set_freq_shift float.pos_zero (some sample_canvas))
        = [freq_shift_transaction fresh_one float.pos_zero] :=
  (C6_out_of_domain fresh_one float.pos_zero sample_canvas (by decide)).2 (by decide)

/-- C7 (transaction framing).  On an attached shifter each mutator transmits,
exactly when it changes its parameter, the single transaction made of, in this
order, effect_type_tag FX_PITCH_SHIFT, the own instance_id of the effect, the
value_type_tag and parameter_id of the parameter written, and the new in-memory
value as payload: (T_BOOL, FX_PITCH_SHIFT_PARAM_ID_ENABLED, new `param_enabled`,
which is true) for `enable()` on a bypassed effect, (T_BOOL,
FX_PITCH_SHIFT_PARAM_ID_ENABLED, new `param_enabled`, which is false) for
`bypass()` on an enabled effect, and (T_FLOAT,
FX_PITCH_SHIFT_PARAM_ID_FREQ_SHIFT, new `param_freq_shift`, which is `v`) for
`set_freq_shift(v)` with `v != param_freq_shift` and the node unconnected.  In
every other case the mutator transmits nothing, so every transaction a mutator
transmits has this frame.  The constructor records `T_FLOAT`, the tag
`set_freq_shift` sends, in the parameter stack slot (index 1) that points to
`param_freq_shift`. -/
theorem C7_framing (fx : fx_pitch_shift) (v : float) (c : fx_canvas) (base : fx_effect)
    (v0 : float) :
    (fx.param_enabled = false →
      transmitted c (fx.enable (some c)) =
          [⟨EFFECT_TYPE.FX_PITCH_SHIFT, fx.instance_id, PARAM_TYPE.T_BOOL,
            PARAM_ID.FX_PITCH_SHIFT_PARAM_ID_ENABLED,
            PARAM_VALUE.bool (fx.enable (some c)).fx.param_enabled⟩] ∧
        (fx.enable (some c)).fx.param_enabled = true) ∧
    (fx.param_enabled = true → transmitted c (fx.enable (some c)) = []) ∧
    (fx.param_enabled = true →
      transmitted c (fx.bypass (some c)) =
          [⟨EFFECT_TYPE.FX_PITCH_SHIFT, fx.instance_id, PARAM_TYPE.T_BOOL,
            PARAM_ID.FX_PITCH_SHIFT_PARAM_ID_ENABLED,
            PARAM_VALUE.bool (fx.bypass (some c)).fx.param_enabled⟩] ∧
        (fx.bypass (some c)).fx.param_enabled = false) ∧
    (fx.param_enabled = false → transmitted c (fx.bypass (some c)) = []) ∧
    ((float.equal v fx.param_freq_shift || fx.node_ctrl_freq_shift.connected) = false →
      transmitted c (fx.set_freq_shift v (some c)) =
          [⟨EFFECT_TYPE.FX_PITCH_SHIFT, fx.instance_id, PARAM_TYPE.T_FLOAT,
            PARAM_ID.FX_PITCH_SHIFT_PARAM_ID_FREQ_SHIFT,
            PARAM_VALUE.float (fx.set_freq_shift v (some c)).fx.param_freq_shift⟩] ∧
        (fx.set_freq_shift v (some c)).fx.param_freq_shift = v) ∧
    ((float.equal v fx.param_freq_shift || fx.node_ctrl_freq_shift.connected) = true →
      transmitted c (fx.set_freq_shift v (some c)) = []) ∧
    (fx_pitch_shift.ctor base v0).param_stack 1 = some PARAM_REF.param_freq_shift ∧
    (fx_pitch_shift.ctor base v0).param_stack_types 1 = some PARAM_TYPE.T_FLOAT := by
  refine ⟨?_, ?_, ?_, ?_, ?_, ?_, ?_, ?_⟩
  · intro h
    simp [enable_attached, h, transmitted, enabled_transaction]
  · intro h
    simp [enable_attached, h, transmitted]
  · intro h
    simp [bypass_attached, h, transmitted, enabled_transaction]
  · intro h
    simp [bypass_attached, h, transmitted]
  · intro h
    simp [set_freq_shift_attached, h, transmitted, freq_shift_transaction]
  · intro h
    simp [set_freq_shift_attached, h, transmitted]
  · simp [fx_pitch_shift.ctor]
  · simp [fx_pitch_shift.ctor]

/-- Witness of C7, on a fresh shifter holding 1.0 attached as instance 0:
`bypass()` sends (FX_PITCH_SHIFT, 0, T_BOOL, ENABLED, false); `enable()` on the
shifter that call leaves sends (FX_PITCH_SHIFT, 0, T_BOOL, ENABLED, true);
`set_freq_shift(2.0)` sends (FX_PITCH_SHIFT, 0, T_FLOAT, FREQ_SHIFT, 2.0). -/
theorem C7_framing_witness :
    transmitted sample_canvas (fresh_one.bypass (some sample_canvas))
        = [⟨EFFECT_TYPE.FX_PITCH_SHIFT, 0, PARAM_TYPE.T_BOOL,
            PARAM_ID.FX_PITCH_SHIFT_PARAM_ID_ENABLED, PARAM_VALUE.bool false⟩] ∧
      transmitted sample_canvas
          ((fresh_one.bypass (some sample_canvas)).fx.enable (some sample_canvas))
        = [⟨EFFECT_TYPE.FX_PITCH_SHIFT, 0, PARAM_TYPE.T_BOOL,
            PARAM_ID.FX_PITCH_SHIFT_PARAM_ID_ENABLED, PARAM_VALUE.bool true⟩] ∧
      transmitted sample_canvas (fresh_one.set_freq_shift float.two (some sample_canvas))
        = [⟨EFFECT_TYPE.FX_PITCH_SHIFT, 0, PARAM_TYPE.T_FLOAT,
            PARAM_ID.FX_PITCH_SHIFT_PARAM_ID_FREQ_SHIFT, PARAM_VALUE.float float.two⟩] :=
  ⟨((C7_framing fresh_one float.two sample_canvas sample_base float.one).2.2.1 rfl).1,
    ((C7_framing (fresh_one.bypass (some sample_canvas)).fx float.two sample_canvas sample_base
      float.one).1 rfl).1,
    ((C7_framing fresh_one float.two sample_canvas sample_base float.one).2.2.2.2.1
      (by decide)).1⟩

/-- C8 as stated fails: `bypass()` on a fresh (enabled) shifter whose canvas
transport fails on the transaction leaves `param_enabled` false, not the true
it was before the call. -/
theorem C8_atomicity_counterexample :
    failing_canvas.transport (enabled_transaction fresh_one false) = false ∧
      fresh_one.param_enabled = true ∧
      (fresh_one.bypass (some failing_canvas)).fx.param_enabled = false := by
  decide

/-- C8 amended (no rollback).  When the bus transaction fails, the write the
mutator made stays: after `set_freq_shift(v)` the effect is the one before the
call with `param_freq_shift = v` (unchanged when the dedup guard or the control
lock stopped the call), after `enable()` it is the one before with
`param_enabled = true`, after `bypass()` the one before with
`param_enabled = false`; the field the mutator does not target keeps its
value. -/
theorem C8_atomicity (fx : fx_pitch_shift) (v : float) (c : fx_canvas)
    (_hfail : ∀ t, c.transport t = false) :
    (fx.set_freq_shift v (some c)).fx =
        (if float.equal v fx.param_freq_shift || fx.node_ctrl_freq_shift.connected then fx
          else { fx with param_freq_shift := v }) ∧
      (fx.enable (some c)).fx = { fx with param_enabled := true } ∧
      (fx.bypass (some c)).fx = { fx with param_enabled := false } := by
  refine ⟨?_, ?_, ?_⟩
  · cases h : (float.equal v fx.param_freq_shift || fx.node_ctrl_freq_shift.connected) <;>
      simp [set_freq_shift_attached, h]
  · cases h : fx.param_enabled
    · simp [enable_attached, h]
    · simp only [enable_attached, h, if_true]
      cases fx with
      | mk b _ _ _ _ _ => cases b; simp_all
  · cases h : fx.param_enabled
    · simp only [bypass_attached, h]
      cases fx with
      | mk b _ _ _ _ _ => cases b; simp_all
    · simp [bypass_attached, h]

/-- Witness of C8: on a canvas whose transport always fails, `set_freq_shift(2.0)`
still leaves 2.0 in a shifter that held 1.0. -/
theorem C8_atomicity_witness :
    (fresh_one.set_freq_shift float.two (some failing_canvas)).fx
      = { fresh_one with param_freq_shift := float.two } :=
  (C8_atomicity fresh_one float.two failing_canvas (fun _ => rfl)).1

/-- C9 as stated fails: `set_freq_shift(2.0)` on a constructed shifter that was
never attached (no canvas behind `parent_canvas`) is not rejected: 2.0 is
written over the 1.0 it held, then the call is made through the absent canvas. -/
theorem C9_not_attached_counterexample :
    ((fx_pitch_shift.ctor sample_base float.one).set_freq_shift float.two none).fx.param_freq_shift
        = float.two ∧
      (fx_pitch_shift.ctor sample_base float.one).param_freq_shift = float.one ∧
      ((fx_pitch_shift.ctor sample_base float.one).set_freq_shift float.two none).fault = true := by
  decide

/-- C9 amended (no attachment check).  On a shifter that is not attached, no
mutator transmits anything (there is no canvas to transmit through), and a
mutator leaves the effect unchanged when its own guard stops the call:
`enable()` when already enabled, `bypass()` when already bypassed,
`set_freq_shift(v)` when `v == param_freq_shift` or the control node is
connected.  In exactly the other cases the call through the absent canvas is
reached. -/
theorem C9_not_attached (fx : fx_pitch_shift) (v : float) :
    ((fx.enable none).parent_canvas = none ∧ (fx.bypass none).parent_canvas = none ∧
        (fx.set_freq_shift v none).parent_canvas = none) ∧
    ((fx.enable none).fault = !fx.param_enabled ∧ (fx.bypass none).fault = fx.param_enabled ∧
        (fx.set_freq_shift v none).fault =
          !(float.equal v fx.param_freq_shift || fx.node_ctrl_freq_shift.connected)) ∧
    (fx.param_enabled = true → (fx.enable none).fx = fx) ∧
    (fx.param_enabled = false → (fx.bypass none).fx = fx) ∧
    ((float.equal v fx.param_freq_shift || fx.node_ctrl_freq_shift.connected) = true →
      (fx.set_freq_shift v none).fx = fx) := by
  refine ⟨⟨?_, ?_, ?_⟩, ⟨?_, ?_, ?_⟩, ?_, ?_, ?_⟩
  · cases h : fx.param_enabled <;>
      simp [fx_pitch_shift.enable, CHECK_LAST_ENABLED, transmit_through, h]
  · cases h : fx.param_enabled <;>
      simp [fx_pitch_shift.bypass, CHECK_LAST_DISABLED, transmit_through, h]
  · cases h1 : float.equal v fx.param_freq_shift <;>
      cases h2 : fx.node_ctrl_freq_shift.connected <;>
      simp [fx_pitch_shift.set_freq_shift, CHECK_LAST, transmit_through, h1, h2]
  · cases h : fx.param_enabled <;>
      simp [fx_pitch_shift.enable, CHECK_LAST_ENABLED, transmit_through, h]
  · cases h : fx.param_enabled <;>
      simp [fx_pitch_shift.bypass, CHECK_LAST_DISABLED, transmit_through, h]
  · cases h1 : float.equal v fx.param_freq_shift <;>
      cases h2 : fx.node_ctrl_freq_shift.connected <;>
      simp [fx_pitch_shift.set_freq_shift, CHECK_LAST, transmit_through, h1, h2]
  · intro h
    simp [fx_pitch_shift.enable, CHECK_LAST_ENABLED, h]
  · intro h
    simp [fx_pitch_shift.bypass, CHECK_LAST_DISABLED, h]
  · intro h
    cases h1 : float.equal v fx.param_freq_shift <;>
      cases h2 : fx.node_ctrl_freq_shift.connected <;>
      simp_all [fx_pitch_shift.set_freq_shift, CHECK_LAST]

/-- Witness of C9: `enable()` on a never attached, freshly constructed (enabled)
shifter changes nothing. -/
theorem C9_not_attached_witness :
    ((fx_pitch_shift.ctor sample_base float.one).enable none).fx
      = fx_pitch_shift.ctor sample_base float.one :=
  (C9_not_attached (fx_pitch_shift.ctor sample_base float.one) float.one).2.2.1 rfl

/-- C10 (one transaction at most, and only on change).  For an attached shifter
a single call of `set_freq_shift(v)`, `enable()` or `bypass()` transmits at most
one transaction.  It transmits one exactly when `v != param_freq_shift` and the
control node is unconnected (then `param_freq_shift` becomes `v`), resp. when
`param_enabled` was false (then it becomes true), resp. when `param_enabled` was
true (then it becomes false); in every other case the effect and the canvas are
left as they were.  `set_freq_shift` never changes `param_enabled`, `enable()`
and `bypass()` never change `param_freq_shift`. -/
theorem C10_at_most_one (fx : fx_pitch_shift) (v : float) (c : fx_canvas) :
    ((transmitted c (fx.set_freq_shift v (some c))).length ≤ 1 ∧
      ((transmitted c (fx.set_freq_shift v (some c))).length = 1 ↔
        (float.equal v fx.param_freq_shift = false ∧
          fx.node_ctrl_freq_shift.connected = false)) ∧
      ((float.equal v fx.param_freq_shift = false ∧ fx.node_ctrl_freq_shift.connected = false) →
        (fx.set_freq_shift v (some c)).fx.param_freq_shift = v) ∧
      (¬ (float.equal v fx.param_freq_shift = false ∧
            fx.node_ctrl_freq_shift.connected = false) →
        (fx.set_freq_shift v (some c)).fx = fx ∧
          (fx.set_freq_shift v (some c)).parent_canvas = some c) ∧
      (fx.set_freq_shift v (some c)).fx.param_enabled = fx.param_enabled) ∧
    ((transmitted c (fx.enable (some c))).length ≤ 1 ∧
      ((transmitted c (fx.enable (some c))).length = 1 ↔ fx.param_enabled = false) ∧
      (fx.param_enabled = false → (fx.enable (some c)).fx.param_enabled = true) ∧
      (¬ fx.param_enabled = false →
        (fx.enable (some c)).fx = fx ∧ (fx.enable (some c)).parent_canvas = some c) ∧
      (fx.enable (some c)).fx.param_freq_shift = fx.param_freq_shift) ∧
    ((transmitted c (fx.bypass (some c))).length ≤ 1 ∧
      ((transmitted c (fx.bypass (some c))).length = 1 ↔ fx.param_enabled = true) ∧
      (fx.param_enabled = true → (fx.bypass (some c)).fx.param_enabled = false) ∧
      (¬ fx.param_enabled = true →
        (fx.bypass (some c)).fx = fx ∧ (fx.bypass (some c)).parent_canvas = some c) ∧
      (fx.bypass (some c)).fx.param_freq_shift = fx.param_freq_shift) := by
  refine ⟨?_, ?_, ?_⟩
  · cases h1 : float.equal v fx.param_freq_shift <;>
      cases h2 : fx.node_ctrl_freq_shift.connected <;>
      simp [set_freq_shift_attached, h1, h2, transmitted]
  · cases h : fx.param_enabled <;> simp [enable_attached, h, transmitted]
  · cases h : fx.param_enabled <;> simp [bypass_attached, h, transmitted]

/-- Witness of C10: `bypass()` on a fresh (enabled) shifter sends its one
transaction and clears `param_enabled`; `enable()` on it is a no-op. -/
theorem C10_at_most_one_witness :
    (fresh_one.bypass (some sample_canvas)).fx.param_enabled = false ∧
      (fresh_one.enable (some sample_canvas)).fx = fresh_one :=
  ⟨(C10_at_most_one fresh_one float.one sample_canvas).2.2.2.2.1 rfl,
    ((C10_at_most_one fresh_one float.one sample_canvas).2.1.2.2.2.1 (by decide)).1⟩

end DreamMakerFx
